import Mathlib

/-!
Verification of the parameter-normalization and output-provisioning core of
`scipy/ndimage/fourier.py` (Fourier-domain filters: Gaussian, uniform,
ellipsoid, shift).

The module is embedded shallowly:
  * `NDArray` models a numpy array as shape, dtype and a flat data buffer;
  * `get_output_fourier` and `get_output_fourier_complex` embed the two
    output provisioners `_get_output_fourier` / `_get_output_fourier_complex`
    (leading underscores dropped for Lean); the Python `None | type | ndarray`
    runtime dispatch on `output` becomes the tagged variant `OutputArg`;
  * the `_ni_support` helpers `_check_axis` and `_normalize_sequence` are not
    part of the reviewed sources and are modelled from the specification;
  * the four public entry points return, instead of performing the native
    call, the exact `KernelInvocation` they would hand to the native kernel
    together with the value the Python function would return; a raised
    `RuntimeError`/`ValueError` is an `Except.error`, and an error result
    structurally carries no kernel invocation (the kernel is the last step).
-/

/-- Element kinds of numpy arrays relevant to this module (the four kinds the
provisioners accept plus integer kinds that exercise the default branches). -/
inductive DType where
  | float32
  | float64
  | complex64
  | complex128
  | int32
  | int64
deriving DecidableEq, Repr

/-- A numpy array: shape, element kind, flat data buffer. -/
structure NDArray where
  shape : List Nat
  dtype : DType
  data : List ℚ
deriving DecidableEq, Repr

/-- `input.ndim` -/
def NDArray.ndim (a : NDArray) : Nat := a.shape.length

/-- Number of elements of an array of the given shape. -/
def shapeSize (shape : List Nat) : Nat := shape.foldl (fun a b => a * b) 1

/-- `numpy.zeros(shape, dtype)`: a zero-filled array. -/
def NDArray.zeros (shape : List Nat) (d : DType) : NDArray :=
  ⟨shape, d, List.replicate (shapeSize shape) 0⟩

/-- The errors this core raises (all are raised as `RuntimeError`/`ValueError`
in the Python source; the constructor records which message). -/
inductive NIError where
  | unsupportedType
  | shapeMismatch
  | lengthMismatch
  | axisOutOfRange
deriving DecidableEq, Repr

/-- The `output` argument of the public operations: absent (`None`), an
explicit element-kind token (`type(output) is types.TypeType`), or a
pre-allocated array. -/
inductive OutputArg where
  | absent
  | dtypeToken (d : DType)
  | buffer (a : NDArray)
deriving DecidableEq, Repr

/-- `_get_output_fourier(output, input)`: the real-or-input-typed output
provisioner used by `fourier_gaussian`, `fourier_uniform` and
`fourier_ellipsoid`.  Returns the output buffer together with the
return value (`some` array to return, or `none` for in-place writes). -/
def get_output_fourier (output : OutputArg) (input : NDArray) :
    Except NIError (NDArray × Option NDArray) :=
  match output with
  | .absent =>
      let out :=
        if input.dtype ∈ [DType.complex64, DType.complex128, DType.float32] then
          NDArray.zeros input.shape input.dtype
        else
          NDArray.zeros input.shape DType.float64
      Except.ok (out, some out)
  | .dtypeToken d =>
      if d ∈ [DType.complex64, DType.complex128, DType.float32, DType.float64] then
        Except.ok (NDArray.zeros input.shape d, some (NDArray.zeros input.shape d))
      else
        Except.error NIError.unsupportedType
  | .buffer a =>
      if a.shape ≠ input.shape then
        Except.error NIError.shapeMismatch
      else
        Except.ok (a, none)

/-- `_get_output_fourier_complex(output, input)`: the complex-only output
provisioner used by `fourier_shift`. -/
def get_output_fourier_complex (output : OutputArg) (input : NDArray) :
    Except NIError (NDArray × Option NDArray) :=
  match output with
  | .absent =>
      let out :=
        if input.dtype ∈ [DType.complex64, DType.complex128] then
          NDArray.zeros input.shape input.dtype
        else
          NDArray.zeros input.shape DType.complex128
      Except.ok (out, some out)
  | .dtypeToken d =>
      if d ∈ [DType.complex64, DType.complex128] then
        Except.ok (NDArray.zeros input.shape d, some (NDArray.zeros input.shape d))
      else
        Except.error NIError.unsupportedType
  | .buffer a =>
      if a.shape ≠ input.shape then
        Except.error NIError.shapeMismatch
      else
        Except.ok (a, none)

/-- Modelled from the spec: `_ni_support._check_axis` is not among the
reviewed sources.  "Axis normalization: accepts an integer in [-ndim, ndim);
negative values map to `ndim + value`; any value outside the valid range
fails with an out-of-range error." -/
def check_axis (axis : Int) (ndim : Nat) : Except NIError Int :=
  if -(ndim : Int) ≤ axis ∧ axis < (ndim : Int) then
    Except.ok (if axis < 0 then (ndim : Int) + axis else axis)
  else
    Except.error NIError.axisOutOfRange

/-- A scalar-or-sequence filter parameter (`sigma` / `size` / `shift`). -/
inductive ParamArg where
  | scalar (x : ℚ)
  | seq (xs : List ℚ)
deriving DecidableEq, Repr

/-- Modelled from the spec: `_ni_support._normalize_sequence` is not among the
reviewed sources.  "Sequence normalization: accepts either a single scalar
(broadcast to a sequence of length `ndim`, every element equal to that
scalar) or a sequence; if a sequence, its length must equal `ndim`, else
fails with a length-mismatch error." -/
def normalize_sequence (p : ParamArg) (ndim : Nat) : Except NIError (List ℚ) :=
  match p with
  | .scalar x => Except.ok (List.replicate ndim x)
  | .seq xs => if xs.length = ndim then Except.ok xs else Except.error NIError.lengthMismatch

/-- The call a public operation hands to the native kernel:
`_nd_image.fourier_filter(input, params, n, axis, output, kind)` with
`kind ∈ {0 = gaussian, 1 = uniform, 2 = ellipsoid}`, or
`_nd_image.fourier_shift(input, shifts, n, axis, output)`. -/
inductive KernelInvocation where
  | filter (input : NDArray) (params : List ℚ) (n axis : Int) (output : NDArray) (kind : Nat)
  | shift (input : NDArray) (shifts : List ℚ) (n axis : Int) (output : NDArray)
deriving DecidableEq, Repr

/-- The output buffer a kernel invocation writes into. -/
def KernelInvocation.outBuf : KernelInvocation → NDArray
  | .filter _ _ _ _ o _ => o
  | .shift _ _ _ _ o => o

/-- `fourier_gaussian(input, sigma, n, axis, output)`.  The result of a
successful call is the kernel invocation performed (the last step) paired
with the Python return value. -/
def fourier_gaussian (input : NDArray) (sigma : ParamArg) (n axis : Int)
    (output : OutputArg) : Except NIError (KernelInvocation × Option NDArray) := do
  let pr ← get_output_fourier output input
  let ax ← check_axis axis input.ndim
  let sigmas ← normalize_sequence sigma input.ndim
  pure (KernelInvocation.filter input sigmas n ax pr.1 0, pr.2)

/-- `fourier_uniform(input, size, n, axis, output)`. -/
def fourier_uniform (input : NDArray) (size : ParamArg) (n axis : Int)
    (output : OutputArg) : Except NIError (KernelInvocation × Option NDArray) := do
  let pr ← get_output_fourier output input
  let ax ← check_axis axis input.ndim
  let sizes ← normalize_sequence size input.ndim
  pure (KernelInvocation.filter input sizes n ax pr.1 1, pr.2)

/-- `fourier_ellipsoid(input, size, n, axis, output)`. -/
def fourier_ellipsoid (input : NDArray) (size : ParamArg) (n axis : Int)
    (output : OutputArg) : Except NIError (KernelInvocation × Option NDArray) := do
  let pr ← get_output_fourier output input
  let ax ← check_axis axis input.ndim
  let sizes ← normalize_sequence size input.ndim
  pure (KernelInvocation.filter input sizes n ax pr.1 2, pr.2)

/-- `fourier_shift(input, shift, n, axis, output)`. -/
def fourier_shift (input : NDArray) (shift : ParamArg) (n axis : Int)
    (output : OutputArg) : Except NIError (KernelInvocation × Option NDArray) := do
  let pr ← get_output_fourier_complex output input
  let ax ← check_axis axis input.ndim
  let shifts ← normalize_sequence shift input.ndim
  pure (KernelInvocation.shift input shifts n ax pr.1, pr.2)

/-- Selector for the four public operations. -/
inductive FilterOp where
  | gaussian
  | uniform
  | ellipsoid
  | shift
deriving DecidableEq, Repr

/-- Dispatch to a public operation by selector. -/
def runOp : FilterOp → NDArray → ParamArg → Int → Int → OutputArg →
    Except NIError (KernelInvocation × Option NDArray)
  | .gaussian => fourier_gaussian
  | .uniform => fourier_uniform
  | .ellipsoid => fourier_ellipsoid
  | .shift => fourier_shift

/-- The output provisioner a given operation uses. -/
def opProvision : FilterOp → OutputArg → NDArray →
    Except NIError (NDArray × Option NDArray)
  | .shift => get_output_fourier_complex
  | _ => get_output_fourier

deriving instance DecidableEq for Except

/-- What each operation passes to the native kernel once all steps succeed. -/
def mkKernelInvocation : FilterOp → NDArray → List ℚ → Int → Int → NDArray → KernelInvocation
  | .gaussian, input, ps, n, ax, o => .filter input ps n ax o 0
  | .uniform, input, ps, n, ax, o => .filter input ps n ax o 1
  | .ellipsoid, input, ps, n, ax, o => .filter input ps n ax o 2
  | .shift, input, ps, n, ax, o => .shift input ps n ax o

/-- A 4×4 float64 array of ones (concrete test input). -/
def onesF64 : NDArray := ⟨[4, 4], DType.float64, List.replicate 16 1⟩

/-- A 4×4 float64 zero buffer. -/
def zeros44 : NDArray := NDArray.zeros [4, 4] DType.float64

/-- A 4×5 float64 zero buffer (wrong shape for `onesF64`). -/
def zeros45 : NDArray := NDArray.zeros [4, 5] DType.float64

/-- An 8-element complex128 array of ones. -/
def onesC128 : NDArray := ⟨[8], DType.complex128, List.replicate 8 1⟩

/-- An 8-element float64 zero buffer (same shape as `onesC128`, real dtype). -/
def zerosF64n8 : NDArray := NDArray.zeros [8] DType.float64

theorem get_output_fourier_buffer_eq (buf input : NDArray) (h : buf.shape = input.shape) :
    get_output_fourier (OutputArg.buffer buf) input = Except.ok (buf, none) := by
  simp [get_output_fourier, h]

theorem get_output_fourier_complex_buffer_eq (buf input : NDArray)
    (h : buf.shape = input.shape) :
    get_output_fourier_complex (OutputArg.buffer buf) input = Except.ok (buf, none) := by
  simp [get_output_fourier_complex, h]

theorem opProvision_buffer_eq (op : FilterOp) (buf input : NDArray)
    (h : buf.shape = input.shape) :
    opProvision op (OutputArg.buffer buf) input = Except.ok (buf, none) := by
  cases op <;>
    simp [opProvision, get_output_fourier_buffer_eq, get_output_fourier_complex_buffer_eq, h]

theorem opProvision_buffer_mismatch (op : FilterOp) (buf input : NDArray)
    (h : buf.shape ≠ input.shape) :
    opProvision op (OutputArg.buffer buf) input = Except.error NIError.shapeMismatch := by
  cases op <;> simp [opProvision, get_output_fourier, get_output_fourier_complex, h]

theorem runOp_provision_error (op : FilterOp) (input : NDArray) (p : ParamArg)
    (n axis : Int) (out : OutputArg) (e : NIError)
    (h : opProvision op out input = Except.error e) :
    runOp op input p n axis out = Except.error e := by
  cases op <;>
    simp_all [runOp, opProvision, fourier_gaussian, fourier_uniform, fourier_ellipsoid,
      fourier_shift, Bind.bind, Except.bind, Functor.map, Except.map]

theorem runOp_axis_error (op : FilterOp) (input : NDArray) (p : ParamArg)
    (n axis : Int) (out : OutputArg) (pr : NDArray × Option NDArray) (e : NIError)
    (h1 : opProvision op out input = Except.ok pr)
    (h2 : check_axis axis input.ndim = Except.error e) :
    runOp op input p n axis out = Except.error e := by
  cases op <;>
    simp_all [runOp, opProvision, fourier_gaussian, fourier_uniform, fourier_ellipsoid,
      fourier_shift, Bind.bind, Except.bind, Functor.map, Except.map]

theorem runOp_param_error (op : FilterOp) (input : NDArray) (p : ParamArg)
    (n axis : Int) (out : OutputArg) (pr : NDArray × Option NDArray) (ax : Int) (e : NIError)
    (h1 : opProvision op out input = Except.ok pr)
    (h2 : check_axis axis input.ndim = Except.ok ax)
    (h3 : normalize_sequence p input.ndim = Except.error e) :
    runOp op input p n axis out = Except.error e := by
  cases op <;>
    simp_all [runOp, opProvision, fourier_gaussian, fourier_uniform, fourier_ellipsoid,
      fourier_shift, Bind.bind, Except.bind, Functor.map, Except.map]

theorem runOp_ok (op : FilterOp) (input : NDArray) (p : ParamArg)
    (n axis : Int) (out : OutputArg) (pr : NDArray × Option NDArray) (ax : Int) (ps : List ℚ)
    (h1 : opProvision op out input = Except.ok pr)
    (h2 : check_axis axis input.ndim = Except.ok ax)
    (h3 : normalize_sequence p input.ndim = Except.ok ps) :
    runOp op input p n axis out = Except.ok (mkKernelInvocation op input ps n ax pr.1, pr.2) := by
  cases op <;>
    simp_all [runOp, opProvision, fourier_gaussian, fourier_uniform, fourier_ellipsoid,
      fourier_shift, mkKernelInvocation, Bind.bind, Except.bind, Functor.map, Except.map, Pure.pure, Except.pure]

theorem mkKernelInvocation_outBuf (op : FilterOp) (input : NDArray) (ps : List ℚ)
    (n ax : Int) (o : NDArray) : (mkKernelInvocation op input ps n ax o).outBuf = o := by
  cases op <;> rfl

theorem runOp_eq (op : FilterOp) (input : NDArray) (p : ParamArg) (n axis : Int)
    (out : OutputArg) :
    runOp op input p n axis out =
      (opProvision op out input).bind (fun pr =>
        (check_axis axis input.ndim).bind (fun ax =>
          (normalize_sequence p input.ndim).bind (fun ps =>
            Except.ok (mkKernelInvocation op input ps n ax pr.1, pr.2)))) := by
  cases op <;> rfl

theorem runOp_ok_inv (op : FilterOp) (input : NDArray) (p : ParamArg)
    (n axis : Int) (out : OutputArg) (k : KernelInvocation) (ret : Option NDArray)
    (h : runOp op input p n axis out = Except.ok (k, ret)) :
    ∃ o : NDArray, opProvision op out input = Except.ok (o, ret) ∧ k.outBuf = o := by
  rw [runOp_eq] at h
  cases hp : opProvision op out input with
  | error e =>
      rw [hp] at h
      simp [Except.bind] at h
  | ok pr =>
      rw [hp] at h
      cases ha : check_axis axis input.ndim with
      | error e =>
          rw [ha] at h
          simp [Except.bind] at h
      | ok ax =>
          rw [ha] at h
          cases hs : normalize_sequence p input.ndim with
          | error e =>
              rw [hs] at h
              simp [Except.bind] at h
          | ok ps =>
              rw [hs] at h
              simp only [Except.bind, Except.ok.injEq, Prod.mk.injEq] at h
              obtain ⟨hk, hret⟩ := h
              refine ⟨pr.1, ?_, ?_⟩
              · rw [← hret, Prod.mk.eta]
              · rw [← hk, mkKernelInvocation_outBuf]

theorem get_output_fourier_nonbuffer_ret (out : OutputArg) (input o : NDArray)
    (r : Option NDArray) (hnb : ∀ b : NDArray, out ≠ OutputArg.buffer b)
    (h : get_output_fourier out input = Except.ok (o, r)) : r = some o := by
  cases out with
  | absent =>
      simp only [get_output_fourier, Except.ok.injEq, Prod.mk.injEq] at h
      rw [← h.2, h.1]
  | dtypeToken d =>
      simp only [get_output_fourier] at h
      split at h
      · simp only [Except.ok.injEq, Prod.mk.injEq] at h
        rw [← h.2, h.1]
      · exact absurd h (by simp)
  | buffer b => exact absurd rfl (hnb b)

theorem get_output_fourier_complex_nonbuffer_ret (out : OutputArg) (input o : NDArray)
    (r : Option NDArray) (hnb : ∀ b : NDArray, out ≠ OutputArg.buffer b)
    (h : get_output_fourier_complex out input = Except.ok (o, r)) : r = some o := by
  cases out with
  | absent =>
      simp only [get_output_fourier_complex, Except.ok.injEq, Prod.mk.injEq] at h
      rw [← h.2, h.1]
  | dtypeToken d =>
      simp only [get_output_fourier_complex] at h
      split at h
      · simp only [Except.ok.injEq, Prod.mk.injEq] at h
        rw [← h.2, h.1]
      · exact absurd h (by simp)
  | buffer b => exact absurd rfl (hnb b)

theorem opProvision_nonbuffer_ret (op : FilterOp) (out : OutputArg) (input o : NDArray)
    (r : Option NDArray) (hnb : ∀ b : NDArray, out ≠ OutputArg.buffer b)
    (h : opProvision op out input = Except.ok (o, r)) : r = some o := by
  cases op
  case shift => exact get_output_fourier_complex_nonbuffer_ret out input o r hnb h
  all_goals exact get_output_fourier_nonbuffer_ret out input o r hnb h

/-- C1: with `output` absent, the real-or-input-typed provisioner allocates a new
zero-filled array of the input's shape, with the input's dtype when that dtype is
complex64, complex128 or float32 and float64 otherwise, and marks it as the value
to return. -/
theorem get_output_fourier_absent_spec (input : NDArray) :
    ∃ out : NDArray,
      get_output_fourier OutputArg.absent input = Except.ok (out, some out) ∧
      out.shape = input.shape ∧
      out.data = List.replicate (shapeSize input.shape) 0 ∧
      out.dtype = (if input.dtype ∈ [DType.complex64, DType.complex128, DType.float32]
                   then input.dtype else DType.float64) := by
  by_cases h : input.dtype ∈ [DType.complex64, DType.complex128, DType.float32]
  · refine ⟨NDArray.zeros input.shape input.dtype, ?_, rfl, rfl, ?_⟩
    · simp [get_output_fourier, h]
    · simp [NDArray.zeros, h]
  · refine ⟨NDArray.zeros input.shape DType.float64, ?_, rfl, rfl, ?_⟩
    · simp [get_output_fourier, h]
    · simp [NDArray.zeros, h]

/-- C2: the complex-only provisioner (used by `fourier_shift`) behaves like the
real-or-input-typed one except that with `output` absent it keeps the input's
dtype only when it is complex64 or complex128 (defaulting to complex128
otherwise), and with an explicit dtype token it accepts only complex64 and
complex128, raising the unsupported-type error for every other token; the
pre-allocated-buffer branch is identical to the real variant's. -/
theorem get_output_fourier_complex_spec (input : NDArray) :
    (∃ out : NDArray,
      get_output_fourier_complex OutputArg.absent input = Except.ok (out, some out) ∧
      out.shape = input.shape ∧
      out.data = List.replicate (shapeSize input.shape) 0 ∧
      out.dtype = (if input.dtype ∈ [DType.complex64, DType.complex128]
                   then input.dtype else DType.complex128)) ∧
    (∀ d : DType,
      get_output_fourier_complex (OutputArg.dtypeToken d) input =
        (if d ∈ [DType.complex64, DType.complex128] then
          Except.ok (NDArray.zeros input.shape d, some (NDArray.zeros input.shape d))
        else Except.error NIError.unsupportedType)) ∧
    (∀ d : DType,
      get_output_fourier_complex (OutputArg.dtypeToken d) input
          = Except.error NIError.unsupportedType ↔
        d ∉ [DType.complex64, DType.complex128]) ∧
    (∀ buf : NDArray,
      get_output_fourier_complex (OutputArg.buffer buf) input
        = get_output_fourier (OutputArg.buffer buf) input) := by
  refine ⟨?_, fun d => rfl, fun d => ?_, fun buf => rfl⟩
  · by_cases h : input.dtype ∈ [DType.complex64, DType.complex128]
    · refine ⟨NDArray.zeros input.shape input.dtype, ?_, rfl, rfl, ?_⟩
      · simp [get_output_fourier_complex, h]
      · simp [NDArray.zeros, h]
    · refine ⟨NDArray.zeros input.shape DType.complex128, ?_, rfl, rfl, ?_⟩
      · simp [get_output_fourier_complex, h]
      · simp [NDArray.zeros, h]
  · by_cases h : d ∈ [DType.complex64, DType.complex128] <;>
      simp [get_output_fourier_complex, h]

/-- C3: with an explicit dtype token, the real-or-input-typed provisioner raises
the unsupported-type error exactly when the token is outside
{complex64, complex128, float32, float64}; for an accepted token it allocates a
zero-filled array of that dtype and the input's shape and marks it as the value
to return. -/
theorem get_output_fourier_token_spec (d : DType) (input : NDArray) :
    (get_output_fourier (OutputArg.dtypeToken d) input =
      (if d ∈ [DType.complex64, DType.complex128, DType.float32, DType.float64] then
        Except.ok (NDArray.zeros input.shape d, some (NDArray.zeros input.shape d))
      else Except.error NIError.unsupportedType)) ∧
    (get_output_fourier (OutputArg.dtypeToken d) input = Except.error NIError.unsupportedType
      ↔ d ∉ [DType.complex64, DType.complex128, DType.float32, DType.float64]) := by
  refine ⟨rfl, ?_⟩
  by_cases h : d ∈ [DType.complex64, DType.complex128, DType.float32, DType.float64] <;>
    simp [get_output_fourier, h]

/-- C4: for every public operation given a pre-allocated output whose shape
differs from the input's, the call fails with the shape-mismatch error (an
error result carries no kernel invocation and no written buffer, so the kernel
is never invoked and the buffer is untouched); with equal shapes the
provisioner accepts the buffer and takes the in-place decision (`none` return). -/
theorem fourier_preallocated_shape_spec (op : FilterOp) (input buf : NDArray)
    (p : ParamArg) (n axis : Int) :
    (buf.shape ≠ input.shape →
      runOp op input p n axis (OutputArg.buffer buf) = Except.error NIError.shapeMismatch) ∧
    (buf.shape = input.shape →
      opProvision op (OutputArg.buffer buf) input = Except.ok (buf, none)) := by
  constructor
  · intro h
    exact runOp_provision_error op input p n axis _ _ (opProvision_buffer_mismatch op buf input h)
  · intro h
    exact opProvision_buffer_eq op buf input h

theorem fourier_preallocated_shape_spec_witness :
    runOp FilterOp.gaussian onesF64 (ParamArg.scalar 1) (-1) (-1) (OutputArg.buffer zeros45)
      = Except.error NIError.shapeMismatch ∧
    opProvision FilterOp.gaussian (OutputArg.buffer zeros44) onesF64
      = Except.ok (zeros44, none) :=
  ⟨(fourier_preallocated_shape_spec FilterOp.gaussian onesF64 zeros45
      (ParamArg.scalar 1) (-1) (-1)).1 (by decide),
   (fourier_preallocated_shape_spec FilterOp.gaussian onesF64 zeros44
      (ParamArg.scalar 1) (-1) (-1)).2 (by decide)⟩

/-- C5: every successful call of a public operation returns the newly allocated
array (the very buffer handed to the kernel) when `output` was absent or a dtype
token, and returns nothing when the caller supplied a pre-allocated buffer. -/
theorem fourier_return_decision (op : FilterOp) (input : NDArray) (p : ParamArg)
    (n axis : Int) (out : OutputArg) (k : KernelInvocation) (ret : Option NDArray)
    (h : runOp op input p n axis out = Except.ok (k, ret)) :
    ((∃ b : NDArray, out = OutputArg.buffer b) → ret = none) ∧
    (out = OutputArg.absent → ∃ arr : NDArray, ret = some arr ∧ k.outBuf = arr) ∧
    (∀ d : DType, out = OutputArg.dtypeToken d →
      ∃ arr : NDArray, ret = some arr ∧ k.outBuf = arr) := by
  obtain ⟨o, ho, hko⟩ := runOp_ok_inv op input p n axis out k ret h
  refine ⟨?_, ?_, ?_⟩
  · rintro ⟨b, rfl⟩
    by_cases hs : b.shape = input.shape
    · rw [opProvision_buffer_eq op b input hs] at ho
      simp only [Except.ok.injEq, Prod.mk.injEq] at ho
      exact ho.2.symm
    · rw [opProvision_buffer_mismatch op b input hs] at ho
      exact absurd ho (by simp)
  · rintro rfl
    exact ⟨o, opProvision_nonbuffer_ret op OutputArg.absent input o ret
      (fun b hb => OutputArg.noConfusion hb) ho, hko⟩
  · rintro d rfl
    exact ⟨o, opProvision_nonbuffer_ret op (OutputArg.dtypeToken d) input o ret
      (fun b hb => OutputArg.noConfusion hb) ho, hko⟩

theorem fourier_return_decision_witness :
    ∃ arr : NDArray, (some zeros44 : Option NDArray) = some arr ∧
      (KernelInvocation.filter onesF64 [1, 1] (-1) 1 zeros44 0).outBuf = arr :=
  (fourier_return_decision FilterOp.gaussian onesF64 (ParamArg.scalar 1) (-1) (-1)
    OutputArg.absent (KernelInvocation.filter onesF64 [1, 1] (-1) 1 zeros44 0)
    (some zeros44) (by decide)).2.1 rfl

/-- C6 counterexample: `fourier_gaussian` called with an invalid output token
(int32), an out-of-range axis (5 on a 2-d input) and a wrong-length parameter
sequence raises the provisioning error (unsupported type), not a normalization
error, so output provisioning runs before parameter and axis normalization. -/
theorem fourier_step_order_counterexample :
    fourier_gaussian onesF64 (ParamArg.seq [1]) (-1) 5 (OutputArg.dtypeToken DType.int32)
      = Except.error NIError.unsupportedType ∧
    check_axis 5 onesF64.ndim = Except.error NIError.axisOutOfRange ∧
    normalize_sequence (ParamArg.seq [1]) onesF64.ndim = Except.error NIError.lengthMismatch ∧
    NIError.unsupportedType ≠ NIError.axisOutOfRange ∧
    NIError.unsupportedType ≠ NIError.lengthMismatch := by decide

/-- C6 amended: every public operation provisions the output first, then
normalizes the axis, then normalizes the filter parameter, then invokes the
native kernel; consequently when both the output argument and the
parameter/axis are invalid, the provisioning error is the one raised. -/
theorem fourier_step_order_amended (op : FilterOp) (input : NDArray) (p : ParamArg)
    (n axis : Int) (out : OutputArg) :
    (∀ e : NIError, opProvision op out input = Except.error e →
      runOp op input p n axis out = Except.error e) ∧
    (∀ (pr : NDArray × Option NDArray) (e : NIError),
      opProvision op out input = Except.ok pr →
      check_axis axis input.ndim = Except.error e →
      runOp op input p n axis out = Except.error e) ∧
    (∀ (pr : NDArray × Option NDArray) (ax : Int) (e : NIError),
      opProvision op out input = Except.ok pr →
      check_axis axis input.ndim = Except.ok ax →
      normalize_sequence p input.ndim = Except.error e →
      runOp op input p n axis out = Except.error e) ∧
    (∀ (pr : NDArray × Option NDArray) (ax : Int) (ps : List ℚ),
      opProvision op out input = Except.ok pr →
      check_axis axis input.ndim = Except.ok ax →
      normalize_sequence p input.ndim = Except.ok ps →
      runOp op input p n axis out
        = Except.ok (mkKernelInvocation op input ps n ax pr.1, pr.2)) :=
  ⟨fun e h => runOp_provision_error op input p n axis out e h,
   fun pr e h1 h2 => runOp_axis_error op input p n axis out pr e h1 h2,
   fun pr ax e h1 h2 h3 => runOp_param_error op input p n axis out pr ax e h1 h2 h3,
   fun pr ax ps h1 h2 h3 => runOp_ok op input p n axis out pr ax ps h1 h2 h3⟩

theorem fourier_step_order_amended_witness :
    runOp FilterOp.gaussian onesF64 (ParamArg.seq [1]) (-1) 5
      (OutputArg.dtypeToken DType.int32) = Except.error NIError.unsupportedType :=
  (fourier_step_order_amended FilterOp.gaussian onesF64 (ParamArg.seq [1]) (-1) 5
    (OutputArg.dtypeToken DType.int32)).1 NIError.unsupportedType (by decide)

/-- C7: axis normalization returns `a` when `a ≥ 0` and `n + a` when `a < 0`
for every `a` with `-n ≤ a < n`, yielding a value in `[0, n)`; every `a`
outside `[-n, n)` fails with the out-of-range error. -/
theorem check_axis_spec (a : Int) (n : Nat) :
    (-(n : Int) ≤ a ∧ a < (n : Int) →
      check_axis a n = Except.ok (if 0 ≤ a then a else (n : Int) + a) ∧
      0 ≤ (if 0 ≤ a then a else (n : Int) + a) ∧
      (if 0 ≤ a then a else (n : Int) + a) < (n : Int)) ∧
    (¬(-(n : Int) ≤ a ∧ a < (n : Int)) →
      check_axis a n = Except.error NIError.axisOutOfRange) := by
  constructor
  · intro h
    refine ⟨?_, ?_, ?_⟩
    · unfold check_axis
      rw [if_pos h]
      congr 1
      split_ifs <;> omega
    · split_ifs <;> omega
    · split_ifs <;> omega
  · intro h
    unfold check_axis
    rw [if_neg h]

theorem check_axis_spec_witness :
    check_axis (-1) 3 = Except.ok 2 ∧
    check_axis 5 3 = Except.error NIError.axisOutOfRange := by
  constructor
  · have h := ((check_axis_spec (-1) 3).1 (by decide)).1
    simpa using h
  · exact (check_axis_spec 5 3).2 (by decide)

/-- C8: for dimensionality `ndim ≥ 1`, normalizing a scalar parameter `p`
yields a sequence of length `ndim` with every element equal to `p`; a sequence
of the wrong length fails with the length-mismatch error, and one of the right
length passes through unchanged. -/
theorem normalize_sequence_spec (ndim : Nat) (p : ℚ) (xs : List ℚ) (h : 1 ≤ ndim) :
    (normalize_sequence (ParamArg.scalar p) ndim = Except.ok (List.replicate ndim p) ∧
      (List.replicate ndim p).length = ndim ∧
      ∀ x ∈ List.replicate ndim p, x = p) ∧
    (xs.length ≠ ndim →
      normalize_sequence (ParamArg.seq xs) ndim = Except.error NIError.lengthMismatch) ∧
    (xs.length = ndim → normalize_sequence (ParamArg.seq xs) ndim = Except.ok xs) := by
  refine ⟨⟨rfl, by simp, fun x hx => List.eq_of_mem_replicate hx⟩, ?_, ?_⟩
  · intro hl
    simp [normalize_sequence, hl]
  · intro hl
    simp [normalize_sequence, hl]

theorem normalize_sequence_spec_witness :
    normalize_sequence (ParamArg.scalar 3) 2 = Except.ok [3, 3] ∧
    normalize_sequence (ParamArg.seq [5]) 2 = Except.error NIError.lengthMismatch := by
  have h := normalize_sequence_spec 2 3 [5] (by decide)
  exact ⟨by simpa using h.1.1, h.2.1 (by decide)⟩

/-- C9: a pre-allocated output buffer of the input's shape is accepted by both
provisioners whatever its dtype — the buffer branch never raises the
unsupported-type error (nor any other), and the buffer itself is handed on as
the kernel's output buffer. -/
theorem preallocated_output_dtype_unchecked (input buf : NDArray)
    (h : buf.shape = input.shape) :
    get_output_fourier (OutputArg.buffer buf) input = Except.ok (buf, none) ∧
    get_output_fourier_complex (OutputArg.buffer buf) input = Except.ok (buf, none) ∧
    (∀ e : NIError, get_output_fourier (OutputArg.buffer buf) input ≠ Except.error e) ∧
    (∀ e : NIError, get_output_fourier_complex (OutputArg.buffer buf) input ≠ Except.error e) := by
  refine ⟨get_output_fourier_buffer_eq buf input h,
    get_output_fourier_complex_buffer_eq buf input h, ?_, ?_⟩
  · intro e he
    rw [get_output_fourier_buffer_eq buf input h] at he
    exact Except.noConfusion he
  · intro e he
    rw [get_output_fourier_complex_buffer_eq buf input h] at he
    exact Except.noConfusion he

theorem preallocated_output_dtype_unchecked_witness :
    get_output_fourier_complex (OutputArg.buffer zerosF64n8) onesC128
      = Except.ok (zerosF64n8, none) :=
  (preallocated_output_dtype_unchecked onesC128 zerosF64n8 (by decide)).2.1

/-- C10: passing the input array itself as `output` is accepted — the shape
check holds trivially, no error is raised, the kernel invocation's output
buffer is the input itself, and the call returns nothing. -/
theorem fourier_inplace_input_as_output (op : FilterOp) (input : NDArray) (p : ParamArg)
    (n axis ax : Int) (ps : List ℚ)
    (h1 : check_axis axis input.ndim = Except.ok ax)
    (h2 : normalize_sequence p input.ndim = Except.ok ps) :
    opProvision op (OutputArg.buffer input) input = Except.ok (input, none) ∧
    runOp op input p n axis (OutputArg.buffer input)
      = Except.ok (mkKernelInvocation op input ps n ax input, none) ∧
    (mkKernelInvocation op input ps n ax input).outBuf = input := by
  have hpr := opProvision_buffer_eq op input input rfl
  refine ⟨hpr, ?_, mkKernelInvocation_outBuf op input ps n ax input⟩
  have h := runOp_ok op input p n axis (OutputArg.buffer input) (input, none) ax ps hpr h1 h2
  simpa using h

theorem fourier_inplace_input_as_output_witness :
    runOp FilterOp.shift onesC128 (ParamArg.scalar 1) (-1) (-1) (OutputArg.buffer onesC128)
      = Except.ok (mkKernelInvocation FilterOp.shift onesC128 [1] (-1) 0 onesC128, none) :=
  (fourier_inplace_input_as_output FilterOp.shift onesC128 (ParamArg.scalar 1) (-1) (-1) 0 [1]
    (by decide) (by decide)).2.1
